import Mathlib

/-!
Shallow embedding of the POI survey engine of src/geo/osm_get.py, together with
the radius handling of the api_search handler in src/app.py, and theorems
settling the specification claims about them.

Numeric conventions: Python floats are modelled as real numbers; Python
round(x, 1) is modelled as rounding to the nearest tenth.  The SQLite store is
modelled as the list of its rows, and the candidate query of survey_latlng as a
filter by the WHERE clause of that query.
-/

namespace OsmGet

/-- Raw tag payload of a database row (the tags_json column): a falsy payload
(NULL or the empty string), a non-empty but unparsable payload, or a payload
parsing to a tag map. -/
inductive TagPayload where
  | empty : TagPayload
  | malformed : TagPayload
  | parsed : List (String × String) → TagPayload
deriving DecidableEq

/-- A tag map: an open mapping from tag keys to tag values (Python dict of
strings, keys unique). -/
abbrev Tags := List (String × String)

/-- Python dict.get k: the value of the first binding of the key, if any. -/
def tagGet (t : Tags) (k : String) : Option String :=
  (t.find? (fun p => p.1 == k)).map (fun p => p.2)

/-- Tags loading of survey_latlng (osm_get.py lines 355-358): a falsy payload
gives the empty map, and a parse failure is caught and also gives the empty
map. -/
def parseTags : TagPayload → Tags
  | .empty => []
  | .malformed => []
  | .parsed t => t

/-- Keep-set AMENITY_PARKING of osm_get.py. -/
def AMENITY_PARKING : List String :=
  ["parking", "parking_entrance", "parking_space", "bicycle_parking", "motorcycle_parking"]

/-- Keep-set AMENITY_SCHOOL of osm_get.py. -/
def AMENITY_SCHOOL : List String :=
  ["kindergarten", "school", "college", "university", "language_school", "music_school",
    "driving_school"]

/-- Keep-set AMENITY_CINEMA of osm_get.py. -/
def AMENITY_CINEMA : List String :=
  ["cinema", "theatre", "arts_centre", "planetarium"]

/-- Keep-set AMENITY_TRANSIT of osm_get.py. -/
def AMENITY_TRANSIT : List String :=
  ["bus_station", "ferry_terminal", "taxi"]

/-- Keep-set AMENITY_FUEL of osm_get.py. -/
def AMENITY_FUEL : List String := ["fuel"]

/-- Keep-set LEISURE_SCENIC of osm_get.py. -/
def LEISURE_SCENIC : List String :=
  ["park", "garden", "playground", "pitch", "stadium", "sports_centre", "swimming_pool",
    "water_park", "nature_reserve", "golf_course", "marina", "beach_resort",
    "recreation_ground"]

/-- Keep-set TOURISM_SCENIC of osm_get.py. -/
def TOURISM_SCENIC : List String :=
  ["attraction", "viewpoint", "museum", "gallery", "theme_park", "zoo", "aquarium",
    "artwork", "picnic_site", "information", "camp_site", "caravan_site", "alpine_hut",
    "wilderness_hut", "chalet", "hotel", "motel", "guest_house", "hostel", "resort"]

/-- Keep-set NATURAL_SCENIC of osm_get.py. -/
def NATURAL_SCENIC : List String :=
  ["peak", "volcano", "spring", "hot_spring", "cave_entrance", "waterfall", "cliff",
    "bay", "beach", "cape", "dune", "wood", "forest"]

/-- Keep-set HISTORIC_SCENIC of osm_get.py. -/
def HISTORIC_SCENIC : List String :=
  ["castle", "fort", "ruins", "archaeological_site", "monument", "memorial",
    "battlefield", "wayside_cross", "wayside_shrine", "heritage"]

/-- Keep-set HIGHWAY_TRANSIT of osm_get.py. -/
def HIGHWAY_TRANSIT : List String := ["bus_stop"]

/-- Keep-set RAILWAY_TRANSIT of osm_get.py. -/
def RAILWAY_TRANSIT : List String :=
  ["station", "halt", "tram_stop", "subway_entrance", "light_rail", "stop", "platform"]

/-- Keep-set PUBLIC_TRANSPORT_TRANSIT of osm_get.py. -/
def PUBLIC_TRANSPORT_TRANSIT : List String :=
  ["stop_position", "platform", "station", "stop_area", "stop_area_group"]

/-- Keep-set AEROWAY_TRANSIT of osm_get.py. -/
def AEROWAY_TRANSIT : List String := ["aerodrome", "terminal", "helipad"]

/-- Keep-set WATERWAY_SCENIC of osm_get.py. -/
def WATERWAY_SCENIC : List String := ["dam", "waterfall", "lock_gate", "weir"]

/-- Keep-set MAN_MADE_SCENIC of osm_get.py. -/
def MAN_MADE_SCENIC : List String :=
  ["pier", "lighthouse", "tower", "water_tower", "windmill", "watermill"]

/-- Keep-set AERIALWAY_TRANSIT of osm_get.py. -/
def AERIALWAY_TRANSIT : List String := ["station"]

/-- Python membership test of an optional tag value in a set of strings
(None is a member of no set of strings). -/
def memOpt (o : Option String) (s : List String) : Bool :=
  match o with
  | none => false
  | some v => s.contains v

/-- Classifier _groups_for_tags of osm_get.py (lines 223-282): the category
labels appended, in source order, by the six independent if-statements.  Each
mutable append of the Python loop body is one conditional singleton of the
concatenation. -/
def _groups_for_tags (tags : Tags) : List String :=
  let amenity := tagGet tags "amenity"
  let leisure := tagGet tags "leisure"
  let tourism := tagGet tags "tourism"
  let natural := tagGet tags "natural"
  let historic := tagGet tags "historic"
  let highway := tagGet tags "highway"
  let railway := tagGet tags "railway"
  let public_transport := tagGet tags "public_transport"
  let aeroway := tagGet tags "aeroway"
  let waterway := tagGet tags "waterway"
  let man_made := tagGet tags "man_made"
  let aerialway := tagGet tags "aerialway"
  (if memOpt amenity AMENITY_FUEL then ["fuel"] else []) ++
  (if memOpt amenity AMENITY_PARKING then ["parking"] else []) ++
  (if memOpt amenity AMENITY_SCHOOL then ["school"] else []) ++
  (if memOpt amenity AMENITY_CINEMA then ["cinema"] else []) ++
  (if memOpt leisure LEISURE_SCENIC || memOpt tourism TOURISM_SCENIC ||
      memOpt natural NATURAL_SCENIC || memOpt historic HISTORIC_SCENIC ||
      memOpt waterway WATERWAY_SCENIC || memOpt man_made MAN_MADE_SCENIC then
    ["scenic"] else []) ++
  (if memOpt amenity AMENITY_TRANSIT || memOpt highway HIGHWAY_TRANSIT ||
      memOpt railway RAILWAY_TRANSIT || memOpt public_transport PUBLIC_TRANSPORT_TRANSIT ||
      memOpt aeroway AEROWAY_TRANSIT || memOpt aerialway AERIALWAY_TRANSIT then
    ["transit"] else [])

noncomputable section

/-- math.radians: degrees to radians. -/
def radians (x : ℝ) : ℝ := x * Real.pi / 180

/-- Intermediate sum a of _haversine_m (osm_get.py line 203). -/
def hav_a (lat1 lng1 lat2 lng2 : ℝ) : ℝ :=
  Real.sin (radians (lat2 - lat1) / 2) ^ 2 +
    Real.cos (radians lat1) * Real.cos (radians lat2) *
      Real.sin (radians (lng2 - lng1) / 2) ^ 2

/-- The clamped argument min(1.0, sqrt(a)) passed to asin (osm_get.py line 204). -/
def hav_clamped (lat1 lng1 lat2 lng2 : ℝ) : ℝ :=
  min 1 (Real.sqrt (hav_a lat1 lng1 lat2 lng2))

/-- Distance function _haversine_m of osm_get.py (lines 196-205), in meters. -/
def _haversine_m (lat1 lng1 lat2 lng2 : ℝ) : ℝ :=
  6371000 * (2 * Real.arcsin (hav_clamped lat1 lng1 lat2 lng2))

/-- Bounding box _bounding_box of osm_get.py (lines 208-216), returned as
(lat_min, lat_max, lng_min, lng_max). -/
def _bounding_box (lat lng radius_m : ℝ) : ℝ × ℝ × ℝ × ℝ :=
  let dlat := radius_m / 111000
  let dlng := radius_m /
    (if Real.cos (radians lat) ≠ 0 then 111000 * Real.cos (radians lat) else 1 / 1000000)
  (lat - dlat, lat + dlat, lng - dlng, lng + dlng)

/-- The WHERE clause of the candidate query of survey_latlng (lines 325-333):
lat BETWEEN lat_min AND lat_max AND lng BETWEEN lng_min AND lng_max. -/
def inBBox (lat lng radius_m plat plng : ℝ) : Bool :=
  decide ((_bounding_box lat lng radius_m).1 ≤ plat) &&
  decide (plat ≤ (_bounding_box lat lng radius_m).2.1) &&
  decide ((_bounding_box lat lng radius_m).2.2.1 ≤ plng) &&
  decide (plng ≤ (_bounding_box lat lng radius_m).2.2.2)

end

/-- A row of the pois table: id_str, osm_type, osm_id, lat, lng, tags_json. -/
structure Row where
  id_str : String
  osm_type : String
  osm_id : Int
  lat : ℝ
  lng : ℝ
  tags_json : TagPayload

/-- The per-POI item dict built by survey_latlng (lines 360-369). -/
structure Item where
  id : String
  osm_type : String
  osm_id : Int
  lat : ℝ
  lng : ℝ
  distance_m : ℝ
  name : Option String
  tags : Tags

/-- Python truthiness of an optional string: a missing value (None) and the
empty string are falsy, every other string is truthy. -/
def truthy (o : Option String) : Bool :=
  match o with
  | none => false
  | some s => !(s == "")

/-- Python x or y on optional strings: x when x is truthy, otherwise y. -/
def pyOr (a b : Option String) : Option String := if truthy a then a else b

/-- Display-name resolution of survey_latlng (line 367):
tags.get("name:zh") or tags.get("name") or tags.get("name:en"). -/
def resolveName (t : Tags) : Option String :=
  pyOr (tagGet t "name:zh") (pyOr (tagGet t "name") (tagGet t "name:en"))

noncomputable section

/-- Model of Python round(x, 1): the nearest tenth.  Python rounds half to even
on the underlying binary floats; exact half-tenth ties are immaterial to every
theorem below, so the half-up convention is used. -/
def round1 (x : ℝ) : ℝ := (⌊x * 10 + 1 / 2⌋ : ℤ) / 10

/-- The item dict built for a surviving row (lines 360-369). -/
def mkItem (lat lng : ℝ) (r : Row) : Item :=
  let tags := parseTags r.tags_json
  { id := r.id_str, osm_type := r.osm_type, osm_id := r.osm_id, lat := r.lat, lng := r.lng,
    distance_m := round1 (_haversine_m lat lng r.lat r.lng),
    name := resolveName tags, tags := tags }

/-- Negation of the skip test dist > radius_m of line 352. -/
def inRadius (lat lng radius_m : ℝ) (r : Row) : Bool :=
  !decide (_haversine_m lat lng r.lat r.lng > radius_m)

/-- The six category keys of the details dict, in insertion order. -/
def CATS : List String := ["fuel", "transit", "school", "parking", "scenic", "cinema"]

/-- The accumulated (pre-sort) detail list of one category: candidate rows of the
bounding-box query, kept when within radius and classified into the category, in
row order, mapped to their item dicts (the loop of lines 347-373). -/
def accum (lat lng radius_m : ℝ) (rows : List Row) (g : String) : List Item :=
  ((rows.filter (fun r => inBBox lat lng radius_m r.lat r.lng)).filter
      (fun r => inRadius lat lng radius_m r &&
        decide (g ∈ _groups_for_tags (parseTags r.tags_json)))).map (mkItem lat lng)

/-- Python list.sort with key x.distance_m (line 377).  list.sort is a stable
sort, and a stable sort by a key is unique, so insertion sort with the
non-strict key order models it exactly. -/
def sortByDist (l : List Item) : List Item :=
  l.insertionSort (fun a b => a.distance_m ≤ b.distance_m)

/-- The return value of survey_latlng (lines 387-392). -/
structure SurveyResult where
  loc_lat : ℝ
  loc_lng : ℝ
  radius_m : ℝ
  summary : String → Nat
  details : String → List Item

/-- The survey operation survey_latlng of osm_get.py (lines 289-392):
bounding-box candidate query, exact radius filter, classification, per-category
stable sort by distance, full-count summary, then top-N truncation.  The
six-key summary and details dicts are modelled as functions that are zero / the
empty list outside the six categories; top_n_per_group is modelled as a natural
number (the non-negative contract; every caller passes 5). -/
def survey_latlng (lat lng : ℝ) (radius_m : ℝ) (rows : List Row)
    (top_n_per_group : Nat) : SurveyResult :=
  let fullDetails : String → List Item := fun g =>
    if g ∈ CATS then sortByDist (accum lat lng radius_m rows g) else []
  { loc_lat := lat, loc_lng := lng, radius_m := radius_m,
    summary := fun g => (fullDetails g).length,
    details := fun g => (fullDetails g).take top_n_per_group }

/-- Radius handling of api_search (src/app.py lines 59-65): a parsed radius
that is not positive raises inside the try block and is silently replaced by
the default 500.0 in the except branch (a parse failure takes the same
branch). -/
def appRadius (r : ℝ) : ℝ := if r ≤ 0 then 500 else r

end

/-- Modelled from the spec: the classification taxonomy of spec section 6, one
independent boolean membership per category, written from the spec's words for
comparison with the source classifier _groups_for_tags. -/
def specMatches (c : String) (tags : Tags) : Bool :=
  if c = "fuel" then memOpt (tagGet tags "amenity") ["fuel"]
  else if c = "parking" then
    memOpt (tagGet tags "amenity")
      ["parking", "parking_entrance", "parking_space", "bicycle_parking",
        "motorcycle_parking"]
  else if c = "school" then
    memOpt (tagGet tags "amenity")
      ["kindergarten", "school", "college", "university", "language_school",
        "music_school", "driving_school"]
  else if c = "cinema" then
    memOpt (tagGet tags "amenity") ["cinema", "theatre", "arts_centre", "planetarium"]
  else if c = "scenic" then
    memOpt (tagGet tags "leisure")
      ["park", "garden", "playground", "pitch", "stadium", "sports_centre",
        "swimming_pool", "water_park", "nature_reserve", "golf_course", "marina",
        "beach_resort", "recreation_ground"] ||
    memOpt (tagGet tags "tourism")
      ["attraction", "viewpoint", "museum", "gallery", "theme_park", "zoo", "aquarium",
        "artwork", "picnic_site", "information", "camp_site", "caravan_site",
        "alpine_hut", "wilderness_hut", "chalet", "hotel", "motel", "guest_house",
        "hostel", "resort"] ||
    memOpt (tagGet tags "natural")
      ["peak", "volcano", "spring", "hot_spring", "cave_entrance", "waterfall", "cliff",
        "bay", "beach", "cape", "dune", "wood", "forest"] ||
    memOpt (tagGet tags "historic")
      ["castle", "fort", "ruins", "archaeological_site", "monument", "memorial",
        "battlefield", "wayside_cross", "wayside_shrine", "heritage"] ||
    memOpt (tagGet tags "waterway") ["dam", "waterfall", "lock_gate", "weir"] ||
    memOpt (tagGet tags "man_made")
      ["pier", "lighthouse", "tower", "water_tower", "windmill", "watermill"]
  else if c = "transit" then
    memOpt (tagGet tags "amenity") ["bus_station", "ferry_terminal", "taxi"] ||
    memOpt (tagGet tags "highway") ["bus_stop"] ||
    memOpt (tagGet tags "railway")
      ["station", "halt", "tram_stop", "subway_entrance", "light_rail", "stop",
        "platform"] ||
    memOpt (tagGet tags "public_transport")
      ["stop_position", "platform", "station", "stop_area", "stop_area_group"] ||
    memOpt (tagGet tags "aeroway") ["aerodrome", "terminal", "helipad"] ||
    memOpt (tagGet tags "aerialway") ["station"]
  else false

/-! Basic facts about the distance engine. -/

lemma hav_clamped_nonneg (a b c d : ℝ) : 0 ≤ hav_clamped a b c d :=
  le_min (by norm_num) (Real.sqrt_nonneg _)

lemma hav_clamped_le_one (a b c d : ℝ) : hav_clamped a b c d ≤ 1 :=
  min_le_left _ _

lemma hav_nonneg (a b c d : ℝ) : 0 ≤ _haversine_m a b c d := by
  have h2 : 0 ≤ Real.arcsin (hav_clamped a b c d) :=
    Real.arcsin_nonneg.mpr (hav_clamped_nonneg a b c d)
  have : (0 : ℝ) ≤ 6371000 := by norm_num
  unfold _haversine_m
  nlinarith

lemma radians_zero : radians 0 = 0 := by simp [radians]

lemma hav_self (lat lng : ℝ) : _haversine_m lat lng lat lng = 0 := by
  simp [_haversine_m, hav_clamped, hav_a, sub_self, radians_zero]

/-! Helper lemmas about the classifier. -/

lemma mem_if_singleton {c : Prop} [Decidable c] {x g : String} :
    g ∈ (if c then [x] else []) ↔ c ∧ g = x := by
  split
  · simp_all [eq_comm]
  · simp_all

lemma groups_nil : _groups_for_tags [] = [] := rfl

lemma nodup_groups_shape (b1 b2 b3 b4 b5 b6 : Bool) :
    ((if b1 then ["fuel"] else []) ++ (if b2 then ["parking"] else []) ++
        (if b3 then ["school"] else []) ++ (if b4 then ["cinema"] else []) ++
        (if b5 then ["scenic"] else []) ++
        (if b6 then ["transit"] else ([] : List String))).Nodup := by
  cases b1 <;> cases b2 <;> cases b3 <;> cases b4 <;> cases b5 <;> cases b6 <;> decide

lemma groups_subset_cats {tags : Tags} {g : String} (h : g ∈ _groups_for_tags tags) :
    g ∈ CATS := by
  simp only [_groups_for_tags, List.mem_append, mem_if_singleton] at h
  rcases h with (((((⟨-, rfl⟩ | ⟨-, rfl⟩) | ⟨-, rfl⟩) | ⟨-, rfl⟩) | ⟨-, rfl⟩) | ⟨-, rfl⟩) <;>
    decide

/-! Helper lemmas about the sort, the truncation and the survey projections. -/

instance : IsTotal Item (fun a b => a.distance_m ≤ b.distance_m) :=
  ⟨fun a b => le_total a.distance_m b.distance_m⟩

instance : IsTrans Item (fun a b => a.distance_m ≤ b.distance_m) :=
  ⟨fun _ _ _ hab hbc => le_trans hab hbc⟩

lemma sortByDist_length (l : List Item) : (sortByDist l).length = l.length :=
  List.length_insertionSort _ l

lemma sortByDist_sorted (l : List Item) :
    (sortByDist l).Pairwise (fun a b => a.distance_m ≤ b.distance_m) :=
  List.sorted_insertionSort _ l

lemma survey_details (lat lng radius : ℝ) (rows : List Row) (n : Nat) (c : String) :
    (survey_latlng lat lng radius rows n).details c =
      (if c ∈ CATS then sortByDist (accum lat lng radius rows c) else []).take n := rfl

lemma survey_summary (lat lng radius : ℝ) (rows : List Row) (n : Nat) (c : String) :
    (survey_latlng lat lng radius rows n).summary c =
      (if c ∈ CATS then sortByDist (accum lat lng radius rows c) else []).length := rfl

noncomputable section

/-- Boolean test that an item's stored distance equals a given value. -/
def distEq (d : ℝ) (x : Item) : Bool := decide (x.distance_m = d)

end

lemma filter_orderedInsert_distEq (d : ℝ) (x : Item) (l : List Item) :
    (List.orderedInsert (fun a b => a.distance_m ≤ b.distance_m) x l).filter (distEq d) =
      if distEq d x then x :: l.filter (distEq d) else l.filter (distEq d) := by
  induction l with
  | nil => cases hx : distEq d x <;> simp [List.orderedInsert, List.filter_cons, distEq] at hx ⊢ <;> simp [hx]
  | cons b t ih =>
      by_cases hxb : x.distance_m ≤ b.distance_m
      · simp only [List.orderedInsert, if_pos hxb]
        cases hx : distEq d x <;> cases hb : distEq d b <;>
          simp [List.filter_cons, hx, hb]
      · simp only [List.orderedInsert, if_neg hxb]
        cases hx : distEq d x
        · simp [List.filter_cons, ih, hx]
        · have hxd : x.distance_m = d := of_decide_eq_true hx
          have hbd : distEq d b = false := by
            have hlt : b.distance_m < x.distance_m := not_le.mp hxb
            exact decide_eq_false (by rw [hxd] at hlt; exact ne_of_lt hlt)
          simp [List.filter_cons, ih, hx, hbd]

lemma filter_sortByDist_distEq (d : ℝ) (l : List Item) :
    (sortByDist l).filter (distEq d) = l.filter (distEq d) := by
  induction l with
  | nil => rfl
  | cons x t ih =>
      have hstep : sortByDist (x :: t) =
          List.orderedInsert (fun a b => a.distance_m ≤ b.distance_m) x (sortByDist t) := rfl
      rw [hstep, filter_orderedInsert_distEq]
      cases hx : distEq d x <;> simp [List.filter_cons, hx, ih]

lemma filter_take_sub {α : Type} (p : α → Bool) :
    ∀ (l : List α) (n : Nat), ∃ k, (l.take n).filter p = (l.filter p).take k := by
  intro l
  induction l with
  | nil => exact fun n => ⟨0, by simp⟩
  | cons x t ih =>
      intro n
      cases n with
      | zero => exact ⟨0, by simp⟩
      | succ m =>
          obtain ⟨k, hk⟩ := ih m
          cases hx : p x
          · exact ⟨k, by simp [List.take_succ_cons, List.filter_cons, hx, hk]⟩
          · exact ⟨k + 1, by simp [List.take_succ_cons, List.filter_cons, hx, hk]⟩

/-- C4: the classifier returns exactly the categories whose section-6 rules
match, each category's rule set evaluated independently; the result has no
duplicate category even when several independent rules of one category match,
as on the park-plus-monument tag map, whose scenic count is exactly one. -/
theorem classifier_matches_spec :
    (∀ (tags : Tags) (g : String),
        (g ∈ _groups_for_tags tags ↔ specMatches g tags = true) ∧
          (_groups_for_tags tags).Nodup) ∧
      List.count "scenic" (_groups_for_tags [("leisure", "park"), ("historic", "monument")]) = 1 := by
  refine ⟨fun tags g => ⟨?_, ?_⟩, by decide⟩
  · by_cases h1 : g = "fuel"
    · subst h1
      simp [_groups_for_tags, specMatches, mem_if_singleton, AMENITY_FUEL]
    · by_cases h2 : g = "parking"
      · subst h2
        simp [_groups_for_tags, specMatches, mem_if_singleton, AMENITY_PARKING]
      · by_cases h3 : g = "school"
        · subst h3
          simp [_groups_for_tags, specMatches, mem_if_singleton, AMENITY_SCHOOL]
        · by_cases h4 : g = "cinema"
          · subst h4
            simp [_groups_for_tags, specMatches, mem_if_singleton, AMENITY_CINEMA]
          · by_cases h5 : g = "scenic"
            · subst h5
              simp [_groups_for_tags, specMatches, mem_if_singleton, LEISURE_SCENIC,
                TOURISM_SCENIC, NATURAL_SCENIC, HISTORIC_SCENIC, WATERWAY_SCENIC,
                MAN_MADE_SCENIC]
            · by_cases h6 : g = "transit"
              · subst h6
                simp [_groups_for_tags, specMatches, mem_if_singleton, AMENITY_TRANSIT,
                  HIGHWAY_TRANSIT, RAILWAY_TRANSIT, PUBLIC_TRANSPORT_TRANSIT,
                  AEROWAY_TRANSIT, AERIALWAY_TRANSIT]
              · simp [_groups_for_tags, specMatches, mem_if_singleton,
                  h1, h2, h3, h4, h5, h6]
  · simp only [_groups_for_tags]
    exact nodup_groups_shape _ _ _ _ _ _

/-- C5: for every category the summary equals the full count, before
truncation, of candidate POIs within the radius that classify into the
category; consequently the summary is at least the length of the returned
details list, with equality whenever the summary is at most
top_n_per_group. -/
theorem summary_full_count :
    ∀ (lat lng radius : ℝ) (rows : List Row) (n : Nat) (c : String),
      c ∈ CATS →
      (survey_latlng lat lng radius rows n).summary c =
          ((rows.filter (fun r => inBBox lat lng radius r.lat r.lng)).filter
              (fun r => inRadius lat lng radius r &&
                decide (c ∈ _groups_for_tags (parseTags r.tags_json)))).length ∧
        ((survey_latlng lat lng radius rows n).details c).length ≤
          (survey_latlng lat lng radius rows n).summary c ∧
        ((survey_latlng lat lng radius rows n).summary c ≤ n →
          ((survey_latlng lat lng radius rows n).details c).length =
            (survey_latlng lat lng radius rows n).summary c) := by
  intro lat lng radius rows n c hc
  have hs : (survey_latlng lat lng radius rows n).summary c =
      (sortByDist (accum lat lng radius rows c)).length := by
    rw [survey_summary, if_pos hc]
  have hd : (survey_latlng lat lng radius rows n).details c =
      (sortByDist (accum lat lng radius rows c)).take n := by
    rw [survey_details, if_pos hc]
  refine ⟨?_, ?_, ?_⟩
  · rw [hs, sortByDist_length, accum, List.length_map]
  · rw [hs, hd, List.length_take]
    exact min_le_right _ _
  · intro hle
    rw [hs] at hle
    rw [hs, hd, List.length_take]
    exact min_eq_right hle

/-- Witness for C5: at the empty store the summary of the fuel category is at
most five and the details length equals the summary. -/
theorem summary_full_count_witness :
    (survey_latlng 0 0 1 [] 5).summary "fuel" ≤ 5 ∧
      ((survey_latlng 0 0 1 [] 5).details "fuel").length =
        (survey_latlng 0 0 1 [] 5).summary "fuel" := by
  have hs : (survey_latlng 0 0 1 [] 5).summary "fuel" = 0 := by
    rw [survey_summary, if_pos (by decide : ("fuel" : String) ∈ CATS)]
    simp [accum, sortByDist]
  have h := summary_full_count 0 0 1 [] 5 "fuel" (by decide)
  exact ⟨by rw [hs]; norm_num, h.2.2 (by rw [hs]; norm_num)⟩

lemma details_pairwise (lat lng radius : ℝ) (rows : List Row) (n : Nat) (c : String) :
    ((survey_latlng lat lng radius rows n).details c).Pairwise
      (fun a b => a.distance_m ≤ b.distance_m) := by
  by_cases hc : c ∈ CATS
  · rw [survey_details, if_pos hc]
    exact List.Pairwise.sublist (List.take_sublist _ _) (sortByDist_sorted _)
  · rw [survey_details, if_neg hc, List.take_nil]
    exact List.Pairwise.nil

/-- C6: within each category of every survey result the stored distance values
are non-decreasing, and the items of any fixed distance value appear in stable
accumulation order (the equal-distance subsequence of the details list is an
initial run of the equal-distance subsequence of the accumulator), so the
output is deterministic for equal distances. -/
theorem details_sorted_and_stable :
    ∀ (lat lng radius : ℝ) (rows : List Row) (n : Nat) (c : String) (d : ℝ),
      ((survey_latlng lat lng radius rows n).details c).Pairwise
          (fun a b => a.distance_m ≤ b.distance_m) ∧
        ∃ k, ((survey_latlng lat lng radius rows n).details c).filter (distEq d) =
          ((accum lat lng radius rows c).filter (distEq d)).take k := by
  intro lat lng radius rows n c d
  refine ⟨details_pairwise lat lng radius rows n c, ?_⟩
  by_cases hc : c ∈ CATS
  · have h1 : (survey_latlng lat lng radius rows n).details c =
        (sortByDist (accum lat lng radius rows c)).take n := by
      rw [survey_details, if_pos hc]
    obtain ⟨k, hk⟩ := filter_take_sub (distEq d) (sortByDist (accum lat lng radius rows c)) n
    rw [filter_sortByDist_distEq] at hk
    exact ⟨k, by rw [h1, hk]⟩
  · have h1 : (survey_latlng lat lng radius rows n).details c = [] := by
      rw [survey_details, if_neg hc, List.take_nil]
    rw [h1]
    exact ⟨0, by simp⟩

lemma accum_malformed (lat lng radius : ℝ) (rows1 rows2 : List Row) (c : String)
    (r : Row) (hr : r.tags_json = TagPayload.malformed) :
    accum lat lng radius (rows1 ++ r :: rows2) c = accum lat lng radius (rows1 ++ rows2) c := by
  have hg : decide (c ∈ _groups_for_tags (parseTags r.tags_json)) = false := by
    rw [hr]
    exact decide_eq_false (by simp [parseTags, groups_nil])
  have hpred : (inRadius lat lng radius r &&
      decide (c ∈ _groups_for_tags (parseTags r.tags_json))) = false := by
    rw [hg, Bool.and_false]
  cases hb : inBBox lat lng radius r.lat r.lng <;>
    simp [accum, List.filter_append, List.filter_cons, hb, hpred]

/-- C7: a row whose tag payload cannot be parsed is recovered locally as an
empty tag map, matches no category, and contributes to no summary count and no
details list: the survey of a store containing it equals the survey of the
store without it, completing normally. -/
theorem malformed_row_ignored :
    ∀ (lat lng radius : ℝ) (rows1 rows2 : List Row) (n : Nat) (c : String) (r : Row),
      r.tags_json = TagPayload.malformed →
      (survey_latlng lat lng radius (rows1 ++ r :: rows2) n).summary c =
          (survey_latlng lat lng radius (rows1 ++ rows2) n).summary c ∧
        (survey_latlng lat lng radius (rows1 ++ r :: rows2) n).details c =
          (survey_latlng lat lng radius (rows1 ++ rows2) n).details c := by
  intro lat lng radius rows1 rows2 n c r hr
  have ha := accum_malformed lat lng radius rows1 rows2 c r hr
  constructor
  · rw [survey_summary, survey_summary, ha]
  · rw [survey_details, survey_details, ha]

/-- Witness for C7: a concrete one-row store whose only row is malformed gives
the same fuel summary and details as the empty store. -/
theorem malformed_row_ignored_witness :
    (survey_latlng 0 0 1 [⟨"node/9", "node", 9, 0, 0, TagPayload.malformed⟩] 5).summary "fuel" =
        (survey_latlng 0 0 1 [] 5).summary "fuel" ∧
      (survey_latlng 0 0 1 [⟨"node/9", "node", 9, 0, 0, TagPayload.malformed⟩] 5).details "fuel" =
        (survey_latlng 0 0 1 [] 5).details "fuel" := by
  simpa using
    malformed_row_ignored 0 0 1 [] [] 5 "fuel" ⟨"node/9", "node", 9, 0, 0, TagPayload.malformed⟩ rfl

/-- C1 (amended): survey_latlng performs no radius validation and signals no
InvalidRadius error: it completes normally for every radius.  For a negative
radius every summary count is zero and every details list empty; the api_search
handler replaces any non-positive radius by the default 500.0 before the survey
is ever called. -/
theorem radius_not_validated :
    ∀ (r lat lng : ℝ) (rows : List Row) (n : Nat) (c : String),
      (r ≤ 0 → appRadius r = 500) ∧
        (r < 0 →
          (survey_latlng lat lng r rows n).summary c = 0 ∧
            (survey_latlng lat lng r rows n).details c = []) := by
  intro r lat lng rows n c
  constructor
  · intro h
    unfold appRadius
    rw [if_pos h]
  · intro h
    have hacc : accum lat lng r rows c = [] := by
      unfold accum
      have hall : ∀ row ∈ rows.filter (fun row => inBBox lat lng r row.lat row.lng),
          ¬((inRadius lat lng r row &&
              decide (c ∈ _groups_for_tags (parseTags row.tags_json))) = true) := by
        intro row _
        have hgt : _haversine_m lat lng row.lat row.lng > r :=
          lt_of_lt_of_le h (hav_nonneg _ _ _ _)
        have hir : inRadius lat lng r row = false := by
          unfold inRadius
          rw [decide_eq_true hgt]
          rfl
        simp [hir]
      rw [List.filter_eq_nil_iff.mpr hall]
      rfl
    constructor
    · rw [survey_summary, hacc]
      simp [sortByDist]
    · rw [survey_details, hacc]
      simp [sortByDist]

/-! Evaluation helpers for concrete one-row stores with the row at the query
centre, and the generic decomposition of a details membership. -/

lemma round1_le_add (x : ℝ) : round1 x ≤ x + 1 / 20 := by
  unfold round1
  have h := Int.floor_le (x * 10 + 1 / 2)
  have h10 : (0 : ℝ) < 10 := by norm_num
  rw [div_le_iff₀ h10]
  linarith

lemma mem_details_elim {lat lng radius : ℝ} {rows : List Row} {n : Nat} {c : String}
    {it : Item} (h : it ∈ (survey_latlng lat lng radius rows n).details c) :
    ∃ r, r ∈ rows ∧ _haversine_m lat lng r.lat r.lng ≤ radius ∧ it = mkItem lat lng r := by
  rw [survey_details] at h
  have h2 := List.mem_of_mem_take h
  by_cases hc : c ∈ CATS
  · rw [if_pos hc] at h2
    unfold sortByDist at h2
    rw [List.mem_insertionSort] at h2
    unfold accum at h2
    obtain ⟨r, hr, rfl⟩ := List.mem_map.mp h2
    have hr2 := List.mem_filter.mp hr
    have hr3 := List.mem_filter.mp hr2.1
    refine ⟨r, hr3.1, ?_, rfl⟩
    have hand := hr2.2
    rw [Bool.and_eq_true] at hand
    have hirad := hand.1
    unfold inRadius at hirad
    by_contra hgt
    rw [decide_eq_true (lt_of_not_le hgt)] at hirad
    simp at hirad
  · rw [if_neg hc] at h2
    exact absurd h2 (List.not_mem_nil it)

lemma inBBox_center_self {radius : ℝ} (hr : 0 ≤ radius) : inBBox 0 0 radius 0 0 = true := by
  have hd : (0 : ℝ) ≤ radius / 111000 := div_nonneg hr (by norm_num)
  have hcos : Real.cos (radians 0) = 1 := by rw [radians_zero, Real.cos_zero]
  simp only [inBBox, _bounding_box, hcos, ne_eq, one_ne_zero, not_false_iff, if_true,
    mul_one, Bool.and_eq_true, decide_eq_true_eq]
  refine ⟨⟨⟨by linarith, by linarith⟩, by linarith⟩, by linarith⟩

lemma inRadius_center_self {radius : ℝ} (hr : 0 ≤ radius) (row : Row)
    (hlat : row.lat = 0) (hlng : row.lng = 0) : inRadius 0 0 radius row = true := by
  unfold inRadius
  rw [hlat, hlng, hav_self]
  rw [decide_eq_false (not_lt.mpr hr)]
  rfl

lemma accum_single_center (row : Row) (hlat : row.lat = 0) (hlng : row.lng = 0)
    {radius : ℝ} (hr : 0 ≤ radius) (c : String)
    (hcg : c ∈ _groups_for_tags (parseTags row.tags_json)) :
    accum 0 0 radius [row] c = [mkItem 0 0 row] := by
  have hbb : inBBox 0 0 radius row.lat row.lng = true := by
    rw [hlat, hlng]
    exact inBBox_center_self hr
  have hir : inRadius 0 0 radius row = true := inRadius_center_self hr row hlat hlng
  simp [accum, List.filter_cons, hbb, hir, hcg]

lemma survey_single_center (row : Row) (hlat : row.lat = 0) (hlng : row.lng = 0)
    {radius : ℝ} (hr : 0 ≤ radius) {n : Nat} (hn : 1 ≤ n) {c : String}
    (hcCAT : c ∈ CATS) (hcg : c ∈ _groups_for_tags (parseTags row.tags_json)) :
    (survey_latlng 0 0 radius [row] n).details c = [mkItem 0 0 row] ∧
      (survey_latlng 0 0 radius [row] n).summary c = 1 := by
  have ha := accum_single_center row hlat hlng hr c hcg
  have hsort : sortByDist [mkItem 0 0 row] = [mkItem 0 0 row] := rfl
  constructor
  · rw [survey_details, if_pos hcCAT, ha, hsort]
    exact List.take_of_length_le (by simpa using hn)
  · rw [survey_summary, if_pos hcCAT, ha, hsort]
    rfl

/-- A fuel POI row located exactly at the query centre. -/
def rowFuelCenter : Row := ⟨"node/1", "node", 1, 0, 0, TagPayload.parsed [("amenity", "fuel")]⟩

/-- A fuel POI row at the centre whose local-language name tag is present but
holds the empty string. -/
def rowNameCenter : Row :=
  ⟨"node/2", "node", 2, 0, 0,
    TagPayload.parsed [("name:zh", ""), ("name", "X"), ("amenity", "fuel")]⟩

/-- C1 (counterexample): at radius zero, which is not positive, survey_latlng
does not fail before querying the store: it queries the store, classifies the
centre POI and returns a normal result counting it; no InvalidRadius failure
path exists in the code. -/
theorem radius_zero_no_failure_cex :
    (survey_latlng 0 0 0 [rowFuelCenter] 5).summary "fuel" = 1 :=
  (survey_single_center rowFuelCenter rfl rfl le_rfl (by norm_num) (by decide) (by decide)).2

/-- Witness for the amended C1 at the concrete radius minus one. -/
theorem radius_not_validated_witness :
    ((-1 : ℝ) ≤ 0 ∧ appRadius (-1) = 500) ∧
      ((-1 : ℝ) < 0 ∧ (survey_latlng 0 0 (-1) [rowFuelCenter] 5).summary "fuel" = 0 ∧
        (survey_latlng 0 0 (-1) [rowFuelCenter] 5).details "fuel" = []) := by
  have h := radius_not_validated (-1) 0 0 [rowFuelCenter] 5 "fuel"
  exact ⟨⟨by norm_num, h.1 (by norm_num)⟩, by norm_num, h.2 (by norm_num)⟩

noncomputable section

/-- The radius of the C2 counterexample: 44597 pi over 1800000 meters, about
7.8 cm, chosen to equal exactly the haversine distance of the row below. -/
def cexTinyRadius : ℝ := 44597 * Real.pi / 1800000

end

noncomputable section

/-- A fuel POI row seven ten-millionths of a degree north of the centre. -/
def rowC2 : Row := ⟨"node/3", "node", 3, 7 / 10000000, 0, TagPayload.parsed [("amenity", "fuel")]⟩

end

lemma hav_tiny : _haversine_m 0 0 (7 / 10000000) 0 = cexTinyRadius := by
  have hpi := Real.pi_pos
  unfold _haversine_m hav_clamped hav_a cexTinyRadius
  have e0 : radians (0 - 0) / 2 = 0 := by
    unfold radians
    ring
  have e4 : radians (7 / 10000000 - 0) / 2 = 7 * Real.pi / 3600000000 := by
    unfold radians
    ring
  rw [e0, e4, Real.sin_zero]
  have hθ2 : 7 * Real.pi / 3600000000 ≤ Real.pi / 2 := by nlinarith
  have hθpi : 7 * Real.pi / 3600000000 ≤ Real.pi := by nlinarith
  have hθ0 : 0 ≤ 7 * Real.pi / 3600000000 := by positivity
  have hsin0 : 0 ≤ Real.sin (7 * Real.pi / 3600000000) :=
    Real.sin_nonneg_of_nonneg_of_le_pi hθ0 hθpi
  have hz : Real.sin (7 * Real.pi / 3600000000) ^ 2 +
      Real.cos (radians 0) * Real.cos (radians (7 / 10000000)) * 0 ^ 2 =
      Real.sin (7 * Real.pi / 3600000000) ^ 2 := by ring
  rw [hz, Real.sqrt_sq hsin0, min_eq_right (Real.sin_le_one _)]
  rw [Real.arcsin_sin (by linarith) hθ2]
  ring

lemma inBBox_rowC2 : inBBox 0 0 cexTinyRadius rowC2.lat rowC2.lng = true := by
  have hpi := Real.pi_pos
  have hlat : rowC2.lat = 7 / 10000000 := rfl
  have hlng : rowC2.lng = 0 := rfl
  have hr : (0 : ℝ) ≤ cexTinyRadius := by
    unfold cexTinyRadius
    positivity
  rw [hlat, hlng]
  have hd : (0 : ℝ) ≤ cexTinyRadius / 111000 := div_nonneg hr (by norm_num)
  have hcos : Real.cos (radians 0) = 1 := by rw [radians_zero, Real.cos_zero]
  simp only [inBBox, _bounding_box, hcos, ne_eq, one_ne_zero, not_false_iff, if_true,
    mul_one, Bool.and_eq_true, decide_eq_true_eq]
  have hlatle : (7 : ℝ) / 10000000 ≤ cexTinyRadius / 111000 := by
    unfold cexTinyRadius
    rw [div_le_div_iff₀ (by norm_num) (by norm_num)]
    nlinarith [Real.pi_gt_d2]
  refine ⟨⟨⟨by linarith, by linarith⟩, by linarith⟩, by linarith⟩

lemma inRadius_rowC2 : inRadius 0 0 cexTinyRadius rowC2 = true := by
  have hlat : rowC2.lat = 7 / 10000000 := rfl
  have hlng : rowC2.lng = 0 := rfl
  unfold inRadius
  rw [hlat, hlng, hav_tiny]
  rw [decide_eq_false (lt_irrefl cexTinyRadius)]
  rfl

lemma details_rowC2 :
    (survey_latlng 0 0 cexTinyRadius [rowC2] 5).details "fuel" = [mkItem 0 0 rowC2] := by
  have ha : accum 0 0 cexTinyRadius [rowC2] "fuel" = [mkItem 0 0 rowC2] := by
    simp [accum, List.filter_cons, inBBox_rowC2, inRadius_rowC2,
      (by decide : "fuel" ∈ _groups_for_tags (parseTags rowC2.tags_json))]
  rw [survey_details, if_pos (by decide : ("fuel" : String) ∈ CATS), ha]
  rfl

lemma round1_cexTiny : round1 cexTinyRadius = 1 / 10 := by
  unfold round1 cexTinyRadius
  have hfloor : ⌊44597 * Real.pi / 1800000 * 10 + 1 / 2⌋ = 1 := by
    rw [Int.floor_eq_iff]
    constructor
    · push_cast
      nlinarith [Real.pi_gt_three]
    · push_cast
      nlinarith [Real.pi_lt_four]
  rw [hfloor]
  norm_num

/-- C2 (counterexample): with radius exactly 44597 pi over 1800000 meters and a
fuel POI at exactly that haversine distance, the POI is emitted, but its stored
distance_m, the distance rounded to one decimal place, is 0.1 m, which exceeds
the radius: the returned distance_m field is not bounded by radius_m. -/
theorem rounded_distance_exceeds_radius_cex :
    0 < cexTinyRadius ∧
      mkItem 0 0 rowC2 ∈ (survey_latlng 0 0 cexTinyRadius [rowC2] 5).details "fuel" ∧
      cexTinyRadius < (mkItem 0 0 rowC2).distance_m := by
  refine ⟨?_, ?_, ?_⟩
  · unfold cexTinyRadius
    positivity
  · rw [details_rowC2]
    exact List.mem_singleton_self _
  · have hd : (mkItem 0 0 rowC2).distance_m =
        round1 (_haversine_m 0 0 rowC2.lat rowC2.lng) := rfl
    have hlat : rowC2.lat = 7 / 10000000 := rfl
    have hlng : rowC2.lng = 0 := rfl
    rw [hd, hlat, hlng, hav_tiny, round1_cexTiny]
    unfold cexTinyRadius
    nlinarith [Real.pi_lt_four]

/-- C2 (amended): every item of every details list of a positive-radius survey
has a source row whose unrounded distance is within the radius, and the stored
rounded distance_m exceeds the radius by at most one half of the rounding unit,
0.05 m. -/
theorem details_distance_within_tolerance :
    ∀ (lat lng radius : ℝ) (rows : List Row) (n : Nat) (c : String) (it : Item),
      0 < radius → it ∈ (survey_latlng lat lng radius rows n).details c →
      it.distance_m ≤ radius + 1 / 20 := by
  intro lat lng radius rows n c it _ hmem
  obtain ⟨r, _, hle, rfl⟩ := mem_details_elim hmem
  have h1 : (mkItem lat lng r).distance_m = round1 (_haversine_m lat lng r.lat r.lng) := rfl
  rw [h1]
  have h2 := round1_le_add (_haversine_m lat lng r.lat r.lng)
  linarith

/-- Witness for the amended C2 at a concrete one-row store. -/
theorem details_distance_within_tolerance_witness :
    (0 : ℝ) < 1 ∧
      mkItem 0 0 rowFuelCenter ∈ (survey_latlng 0 0 1 [rowFuelCenter] 5).details "fuel" ∧
      (mkItem 0 0 rowFuelCenter).distance_m ≤ 1 + 1 / 20 := by
  have hmem : mkItem 0 0 rowFuelCenter ∈
      (survey_latlng 0 0 1 [rowFuelCenter] 5).details "fuel" := by
    rw [(survey_single_center rowFuelCenter rfl rfl (by norm_num) (by norm_num) (by decide)
      (by decide)).1]
    exact List.mem_singleton_self _
  exact ⟨by norm_num, hmem,
    details_distance_within_tolerance 0 0 1 [rowFuelCenter] 5 "fuel" _ (by norm_num) hmem⟩

/-- C10: every item of every details list stores as distance_m the true
haversine distance of its source row rounded to one decimal place, while the
inclusion test bounds the unrounded distance by the radius; and the
per-category lists are ordered by the stored rounded value. -/
theorem details_distance_rounded :
    ∀ (lat lng radius : ℝ) (rows : List Row) (n : Nat) (c : String),
      (∀ it, it ∈ (survey_latlng lat lng radius rows n).details c →
          ∃ r, r ∈ rows ∧ _haversine_m lat lng r.lat r.lng ≤ radius ∧
            it.distance_m = round1 (_haversine_m lat lng r.lat r.lng)) ∧
        ((survey_latlng lat lng radius rows n).details c).Pairwise
          (fun a b => a.distance_m ≤ b.distance_m) := by
  intro lat lng radius rows n c
  refine ⟨?_, details_pairwise lat lng radius rows n c⟩
  intro it hmem
  obtain ⟨r, hrmem, hle, rfl⟩ := mem_details_elim hmem
  exact ⟨r, hrmem, hle, rfl⟩

/-- Witness for C10 at a concrete one-row store. -/
theorem details_distance_rounded_witness :
    mkItem 0 0 rowFuelCenter ∈ (survey_latlng 0 0 1 [rowFuelCenter] 5).details "fuel" ∧
      ∃ r, r ∈ [rowFuelCenter] ∧ _haversine_m 0 0 r.lat r.lng ≤ 1 ∧
        (mkItem 0 0 rowFuelCenter).distance_m = round1 (_haversine_m 0 0 r.lat r.lng) := by
  have hmem : mkItem 0 0 rowFuelCenter ∈
      (survey_latlng 0 0 1 [rowFuelCenter] 5).details "fuel" := by
    rw [(survey_single_center rowFuelCenter rfl rfl (by norm_num) (by norm_num) (by decide)
      (by decide)).1]
    exact List.mem_singleton_self _
  exact ⟨hmem, (details_distance_rounded 0 0 1 [rowFuelCenter] 5 "fuel").1 _ hmem⟩

/-- C9 (amended): the display name is the first of the local-language name, the
plain name and the English name whose value is present and non-empty under
Python truthiness; when the first two are absent or empty the raw English-name
lookup is returned as is, and every emitted item's name field is this
resolution of its own tag map.  A key present with the empty-string value is
skipped, not used. -/
theorem name_resolution_truthiness :
    ∀ (t : Tags),
      (∀ s, tagGet t "name:zh" = some s → s ≠ "" → resolveName t = some s) ∧
        (truthy (tagGet t "name:zh") = false →
          ∀ s, tagGet t "name" = some s → s ≠ "" → resolveName t = some s) ∧
        (truthy (tagGet t "name:zh") = false → truthy (tagGet t "name") = false →
          resolveName t = tagGet t "name:en") ∧
        (∀ (lat lng radius : ℝ) (rows : List Row) (n : Nat) (c : String) (it : Item),
          it ∈ (survey_latlng lat lng radius rows n).details c →
          it.name = resolveName it.tags) := by
  intro t
  refine ⟨?_, ?_, ?_, ?_⟩
  · intro s hs hne
    have ht : truthy (some s) = true := by simp [truthy, hne]
    simp [resolveName, pyOr, hs, ht]
  · intro hzh s hs hne
    have ht : truthy (some s) = true := by simp [truthy, hne]
    simp [resolveName, pyOr, hzh, hs, ht]
  · intro hzh hname
    simp [resolveName, pyOr, hzh, hname]
  · intro lat lng radius rows n c it hmem
    obtain ⟨r, _, _, rfl⟩ := mem_details_elim hmem
    rfl

/-- Witness for the amended C9 at a concrete tag map. -/
theorem name_resolution_truthiness_witness :
    tagGet [("name:zh", "ab")] "name:zh" = some "ab" ∧ ("ab" : String) ≠ "" ∧
      resolveName [("name:zh", "ab")] = some "ab" :=
  ⟨rfl, by decide, (name_resolution_truthiness [("name:zh", "ab")]).1 "ab" rfl (by decide)⟩

/-! Real-analysis helpers for the distance engine claims. -/

lemma radians_mem_pi_half {x : ℝ} (h1 : -90 ≤ x) (h2 : x ≤ 90) :
    -(Real.pi / 2) ≤ radians x ∧ radians x ≤ Real.pi / 2 := by
  unfold radians
  constructor
  · nlinarith [Real.pi_pos, mul_nonneg (by linarith : (0 : ℝ) ≤ x + 90) Real.pi_pos.le]
  · nlinarith [Real.pi_pos, mul_nonneg (by linarith : (0 : ℝ) ≤ 90 - x) Real.pi_pos.le]

lemma cos_radians_nonneg {x : ℝ} (h1 : -90 ≤ x) (h2 : x ≤ 90) :
    0 ≤ Real.cos (radians x) :=
  Real.cos_nonneg_of_mem_Icc
    ⟨(radians_mem_pi_half h1 h2).1, (radians_mem_pi_half h1 h2).2⟩

/-- C8: for latitudes within range the haversine intermediate sum is
non-negative (the square root's argument is in domain) and the clamped value
passed to the arc-sine lies between zero and one, so the arc-sine never
receives an out-of-domain argument and the distance is a total, non-negative
real number, including at antipodal and coincident points. -/
theorem haversine_clamped_total :
    ∀ (lat1 lng1 lat2 lng2 : ℝ), -90 ≤ lat1 → lat1 ≤ 90 → -90 ≤ lat2 → lat2 ≤ 90 →
      0 ≤ hav_a lat1 lng1 lat2 lng2 ∧
        0 ≤ hav_clamped lat1 lng1 lat2 lng2 ∧ hav_clamped lat1 lng1 lat2 lng2 ≤ 1 ∧
        0 ≤ _haversine_m lat1 lng1 lat2 lng2 := by
  intro lat1 lng1 lat2 lng2 h1 h2 h3 h4
  refine ⟨?_, hav_clamped_nonneg _ _ _ _, hav_clamped_le_one _ _ _ _, hav_nonneg _ _ _ _⟩
  have hc1 : 0 ≤ Real.cos (radians lat1) := cos_radians_nonneg h1 h2
  have hc2 : 0 ≤ Real.cos (radians lat2) := cos_radians_nonneg h3 h4
  unfold hav_a
  exact add_nonneg (sq_nonneg _) (mul_nonneg (mul_nonneg hc1 hc2) (sq_nonneg _))

/-- Witness for C8 at coincident points on the equator. -/
theorem haversine_clamped_total_witness :
    ((-90 : ℝ) ≤ 0 ∧ (0 : ℝ) ≤ 90) ∧
      0 ≤ hav_a 0 0 0 0 ∧ 0 ≤ hav_clamped 0 0 0 0 ∧ hav_clamped 0 0 0 0 ≤ 1 ∧
        0 ≤ _haversine_m 0 0 0 0 :=
  ⟨⟨by norm_num, by norm_num⟩,
    haversine_clamped_total 0 0 0 0 (by norm_num) (by norm_num) (by norm_num) (by norm_num)⟩

lemma abs_sin_eq_sin_abs {x : ℝ} (hx : |x| ≤ Real.pi) : |Real.sin x| = Real.sin |x| := by
  rcases le_or_lt 0 x with h | h
  · rw [abs_of_nonneg h]
    exact abs_of_nonneg (Real.sin_nonneg_of_nonneg_of_le_pi h (by rwa [abs_of_nonneg h] at hx))
  · rw [abs_of_neg h] at hx ⊢
    rw [Real.sin_neg]
    have hs : 0 ≤ Real.sin (-x) := Real.sin_nonneg_of_nonneg_of_le_pi (by linarith) hx
    rw [Real.sin_neg] at hs
    exact abs_of_nonpos (by linarith)

lemma hav_ge_lat_component {lat lng plat plng : ℝ}
    (hlat1 : -90 ≤ lat) (hlat2 : lat ≤ 90) (hp1 : -90 ≤ plat) (hp2 : plat ≤ 90) :
    6371000 * |radians (plat - lat)| ≤ _haversine_m lat lng plat plng := by
  have hpi := Real.pi_pos
  have habs180 : |plat - lat| ≤ 180 := abs_le.mpr ⟨by linarith, by linarith⟩
  have habsr : |radians (plat - lat)| = |plat - lat| * Real.pi / 180 := by
    unfold radians
    rw [abs_div, abs_mul, abs_of_pos Real.pi_pos, abs_of_pos (by norm_num : (0 : ℝ) < 180)]
  have hhalf : |radians (plat - lat) / 2| ≤ Real.pi / 2 := by
    rw [abs_div, abs_of_pos (by norm_num : (0 : ℝ) < 2), habsr]
    rw [div_le_div_iff₀ (by norm_num) (by norm_num)]
    nlinarith [mul_nonneg (by linarith : (0 : ℝ) ≤ 180 - |plat - lat|) hpi.le]
  set th := radians (plat - lat) / 2 with hth
  have hsin_le : |Real.sin th| ≤ hav_clamped lat lng plat plng := by
    refine le_min (Real.abs_sin_le_one th) ?_
    have h1 : Real.sin th ^ 2 ≤ hav_a lat lng plat plng := by
      unfold hav_a
      have hc1 : 0 ≤ Real.cos (radians lat) := cos_radians_nonneg hlat1 hlat2
      have hc2 : 0 ≤ Real.cos (radians plat) := cos_radians_nonneg hp1 hp2
      nlinarith [mul_nonneg (mul_nonneg hc1 hc2)
        (sq_nonneg (Real.sin (radians (plng - lng) / 2)))]
    calc |Real.sin th| = Real.sqrt (Real.sin th ^ 2) := (Real.sqrt_sq_eq_abs _).symm
      _ ≤ Real.sqrt (hav_a lat lng plat plng) := Real.sqrt_le_sqrt h1
  have harcsin : |th| ≤ Real.arcsin (hav_clamped lat lng plat plng) := by
    have hmono := Real.monotone_arcsin hsin_le
    have heq : Real.arcsin |Real.sin th| = |th| := by
      rw [abs_sin_eq_sin_abs (by linarith [abs_nonneg th] : |th| ≤ Real.pi)]
      exact Real.arcsin_sin (by linarith [abs_nonneg th]) hhalf
    rwa [heq] at hmono
  have habs2 : |radians (plat - lat)| = 2 * |th| := by
    rw [hth, abs_div, abs_of_pos (by norm_num : (0 : ℝ) < 2)]
    ring
  unfold _haversine_m
  rw [habs2]
  nlinarith [harcsin]

/-- C3 (amended): the latitude bounds of the returned box always contain every
point within the radius, but the longitude bounds do not: a point at distance
exactly the radius can fall outside the box, so the box is not a conservative
over-approximation of the radius circle for every radius. -/
theorem bounding_box_contains_latitude :
    ∀ (lat lng radius plat plng : ℝ), -90 ≤ lat → lat ≤ 90 → -90 ≤ plat → plat ≤ 90 →
      _haversine_m lat lng plat plng ≤ radius →
      (_bounding_box lat lng radius).1 ≤ plat ∧ plat ≤ (_bounding_box lat lng radius).2.1 := by
  intro lat lng radius plat plng hlat1 hlat2 hp1 hp2 hrad
  have hkey := le_trans (@hav_ge_lat_component lat lng plat plng hlat1 hlat2 hp1 hp2) hrad
  have habsr : |radians (plat - lat)| = |plat - lat| * Real.pi / 180 := by
    unfold radians
    rw [abs_div, abs_mul, abs_of_pos Real.pi_pos, abs_of_pos (by norm_num : (0 : ℝ) < 180)]
  rw [habsr] at hkey
  have habs : |plat - lat| ≤ radius / 111000 := by
    rw [le_div_iff₀ (by norm_num : (0 : ℝ) < 111000)]
    nlinarith [Real.pi_gt_d2, abs_nonneg (plat - lat)]
  have hb := abs_le.mp habs
  have hbox1 : (_bounding_box lat lng radius).1 = lat - radius / 111000 := rfl
  have hbox2 : (_bounding_box lat lng radius).2.1 = lat + radius / 111000 := rfl
  rw [hbox1, hbox2]
  constructor
  · linarith [hb.1]
  · linarith [hb.2]

/-- Witness for the amended C3 at the equatorial centre with unit radius. -/
theorem bounding_box_contains_latitude_witness :
    ((-90 : ℝ) ≤ 0 ∧ (0 : ℝ) ≤ 90 ∧ _haversine_m 0 0 0 0 ≤ 1) ∧
      (_bounding_box 0 0 1).1 ≤ 0 ∧ (0 : ℝ) ≤ (_bounding_box 0 0 1).2.1 := by
  have hh : _haversine_m 0 0 0 0 ≤ 1 := by
    rw [hav_self]
    norm_num
  exact ⟨⟨by norm_num, by norm_num, hh⟩,
    bounding_box_contains_latitude 0 0 1 0 0 (by norm_num) (by norm_num) (by norm_num)
      (by norm_num) hh⟩

noncomputable section

/-- The radius of the C3 counterexample: one third of pi earth radii, about
6672 km, a radius at which the longitude pre-filter drops a true match. -/
def cexBigRadius : ℝ := 6371000 * Real.pi / 3

end

lemma hav_sixty_antimeridian : _haversine_m 60 0 60 180 = 6371000 * Real.pi / 3 := by
  have hpi := Real.pi_pos
  unfold _haversine_m hav_clamped hav_a
  have e1 : radians (60 - 60) / 2 = 0 := by
    unfold radians
    ring
  have e2 : radians (180 - 0) / 2 = Real.pi / 2 := by
    unfold radians
    ring
  have e3 : radians 60 = Real.pi / 3 := by
    unfold radians
    ring
  rw [e1, e2, e3, Real.sin_zero, Real.sin_pi_div_two, Real.cos_pi_div_three]
  have ha : (0 : ℝ) ^ 2 + 1 / 2 * (1 / 2) * 1 ^ 2 = (1 / 2) ^ 2 := by norm_num
  rw [ha, Real.sqrt_sq (by norm_num : (0 : ℝ) ≤ 1 / 2)]
  rw [min_eq_right (by norm_num : (1 : ℝ) / 2 ≤ 1)]
  have harc : Real.arcsin (1 / 2) = Real.pi / 6 := by
    rw [show (1 / 2 : ℝ) = Real.sin (Real.pi / 6) from Real.sin_pi_div_six.symm]
    exact Real.arcsin_sin (by linarith) (by linarith)
  rw [harc]
  ring

/-- C3 (counterexample): at centre latitude 60, longitude 0, with radius
6371000 times pi over three, the point at latitude 60, longitude 180 is at
great-circle distance exactly equal to the radius yet lies outside the
returned bounding box: the box excludes a true match. -/
theorem bounding_box_not_conservative_cex :
    (-90 : ℝ) ≤ 60 ∧ (60 : ℝ) ≤ 90 ∧ 0 < cexBigRadius ∧
      _haversine_m 60 0 60 180 ≤ cexBigRadius ∧
      inBBox 60 0 cexBigRadius 60 180 = false := by
  have hpi := Real.pi_pos
  refine ⟨by norm_num, by norm_num, ?_, ?_, ?_⟩
  · unfold cexBigRadius
    positivity
  · rw [hav_sixty_antimeridian]
    exact le_refl _
  · have e3 : radians 60 = Real.pi / 3 := by
      unfold radians
      ring
    have hcos : Real.cos (radians 60) = 1 / 2 := by rw [e3, Real.cos_pi_div_three]
    have hmax : (_bounding_box 60 0 cexBigRadius).2.2.2 =
        0 + cexBigRadius / (111000 * (1 / 2)) := by
      show (0 : ℝ) + cexBigRadius /
          (if Real.cos (radians 60) ≠ 0 then 111000 * Real.cos (radians 60)
            else 1 / 1000000) = _
      rw [hcos]
      norm_num
    have hnotle : ¬((180 : ℝ) ≤ (_bounding_box 60 0 cexBigRadius).2.2.2) := by
      rw [hmax]
      unfold cexBigRadius
      intro hcon
      rw [zero_add, le_div_iff₀ (by norm_num : (0 : ℝ) < 111000 * (1 / 2))] at hcon
      nlinarith [Real.pi_lt_four]
    have hd : decide ((180 : ℝ) ≤ (_bounding_box 60 0 cexBigRadius).2.2.2) = false :=
      decide_eq_false hnotle
    simp only [inBBox, hd, Bool.and_false]

/-- C9 (counterexample): on a tag map whose local-language name key is present
with the empty-string value, the emitted item's name is the plain name "X",
not the present local-language value, refuting presence-based resolution. -/
theorem name_empty_string_skipped_cex :
    mkItem 0 0 rowNameCenter ∈ (survey_latlng 0 0 1 [rowNameCenter] 5).details "fuel" ∧
      tagGet (parseTags rowNameCenter.tags_json) "name:zh" = some "" ∧
      (mkItem 0 0 rowNameCenter).name = some "X" := by
  refine ⟨?_, rfl, rfl⟩
  rw [(survey_single_center rowNameCenter rfl rfl (by norm_num) (by norm_num) (by decide)
    (by decide)).1]
  exact List.mem_singleton_self _

end OsmGet
